import Mathlib

/-!
# RaPal AI chatbot: session store and request handlers

A shallow embedding of `src/server.js` (the standalone Express server) and
`src/api/index.js` (the serverless handler), followed by theorems about the
session lifecycle, input validation, rate limiting and error mapping.

Conventions of the embedding:

* a JavaScript string is the list of its UTF-16 code units, so that `.length`
  is `List.length`;
* a JavaScript value is a `JSVal` (the JSON shapes plus `undefined`);
* the module-level `chatSessions` map is an insertion-ordered association
  list that is passed in and returned;
* `Date.now()` readings and the outcome of the external generation call are
  parameters of the handler;
* the session counter and the timestamps are integers; they stay far below
  2^53, where JavaScript numbers are exact;
* one handler invocation is one atomic step (no interleaving at the `await`).
-/

namespace RaPal

/-! ## JavaScript values -/

/-- A JavaScript string: its UTF-16 code units. -/
abbrev JSString := List Nat

/-- The code units of a source literal (all literals in the source are in the
Basic Multilingual Plane, one unit per character). -/
def lit (s : String) : JSString := s.toList.map Char.toNat

/-- JavaScript values that a parsed JSON body or a thrown value can be. A
number is kept as an integer: the only thing the handlers ask of a number is
whether it is truthy. -/
inductive JSVal where
  | undefined
  | null
  | bool (b : Bool)
  | num (n : Int)
  | str (s : JSString)
  | arr (items : List JSVal)
  | obj (fields : List (String × JSVal))

/-- The results of the `typeof` operator on the values of `JSVal`. -/
inductive JSType where
  | undefined
  | object
  | boolean
  | number
  | string
  deriving DecidableEq, Repr

/-- The operator `typeof v`. -/
def typeof : JSVal → JSType
  | .undefined => .undefined
  | .null => .object
  | .bool _ => .boolean
  | .num _ => .number
  | .str _ => .string
  | .arr _ => .object
  | .obj _ => .object

/-- Truthiness (`ToBoolean`): `!v` is `!(truthy v)`. -/
def truthy : JSVal → Bool
  | .undefined => false
  | .null => false
  | .bool b => b
  | .num n => n != 0
  | .str s => !s.isEmpty
  | .arr _ => true
  | .obj _ => true

/-- The code units of a string value (used only where `typeof v` is
`string`). -/
def strData : JSVal → JSString
  | .str s => s
  | _ => []

/-- Whether `v` is the string `s` (the comparison `Array.prototype.includes`
makes against a string argument). -/
def isStr (s : JSString) : JSVal → Bool
  | .str t => t == s
  | _ => false

/-- Lookup of an own property in the field list of an object. -/
def lookupField (key : String) : List (String × JSVal) → JSVal
  | [] => .undefined
  | (k, v) :: rest => if k = key then v else lookupField key rest

/-- Property read `v.key` for a name that no built-in prototype defines
(here: `message`): `none` is the TypeError raised on `undefined` and `null`;
primitives and arrays have no such property. -/
def getProp (v : JSVal) (key : String) : Option JSVal :=
  match v with
  | .undefined => none
  | .null => none
  | .obj fields => some (lookupField key fields)
  | _ => some .undefined

/-! ## Strings -/

/-- Whether `p` is an initial segment of `s`. -/
def startsWith (p : JSString) : JSString → Bool
  | s => p == s.take p.length

/-- The method `String.prototype.includes`: `needle` occurs in `s`. -/
def includes : JSString → JSString → Bool
  | [], needle => needle.isEmpty
  | c :: rest, needle => startsWith needle (c :: rest) || includes rest needle

/-- The code units removed by `String.prototype.trim`: ECMAScript WhiteSpace
and LineTerminator. -/
def isWhiteSpace (c : Nat) : Bool :=
  c == 0x0009 || c == 0x000A || c == 0x000B || c == 0x000C || c == 0x000D ||
  c == 0x0020 || c == 0x00A0 || c == 0x1680 || (0x2000 ≤ c && c ≤ 0x200A) ||
  c == 0x2028 || c == 0x2029 || c == 0x202F || c == 0x205F || c == 0x3000 ||
  c == 0xFEFF

/-- The method `String.prototype.trim`. -/
def trim (s : JSString) : JSString :=
  ((s.dropWhile isWhiteSpace).reverse.dropWhile isWhiteSpace).reverse

/-! ## Responses -/

/-- An HTTP response: status code and, when a JSON body was sent, the fields
of the serialised object. -/
structure Response where
  status : Nat
  body : Option (List (String × JSVal))

/-- Serialisation by `res.json(obj)`: properties whose value is `undefined`
are left out. -/
def json (fields : List (String × JSVal)) : List (String × JSVal) :=
  fields.filter fun kv => match kv.2 with
    | .undefined => false
    | _ => true

/-- The value of field `key` in the body of a response, if it has one. -/
def Response.field (r : Response) (key : String) : Option JSVal :=
  match r.body with
  | none => none
  | some fields => (fields.find? fun kv => kv.1 == key).map Prod.snd

/-- Whether the body of a response is a JSON object with field `key`. -/
def Response.hasField (r : Response) (key : String) : Bool :=
  (r.field key).isSome

/-! ## Session store -/

/-- The conversation object of the external model client, kept as the log of
the turns submitted to it. -/
structure ChatSession where
  sent : List JSString
  deriving DecidableEq, Repr

/-- The call `model.startChat` with an empty history. -/
def startChat : ChatSession := { sent := [] }

/-- The call `chat.sendMessage(message)`: one more turn is submitted. -/
def ChatSession.sendMessage (c : ChatSession) (message : JSString) : ChatSession :=
  { sent := c.sent ++ [message] }

/-- The session object stored in `chatSessions`. -/
structure Session where
  chat : ChatSession
  lastActivity : Int
  messageCount : Nat
  deriving DecidableEq, Repr

/-- The map `chatSessions`, in insertion order. -/
abbrev Store := List (JSString × Session)

namespace JSMap

/-- The method `Map.prototype.get`. -/
def get : Store → JSString → Option Session
  | [], _ => none
  | (k, v) :: rest, key => if k = key then some v else get rest key

/-- The method `Map.prototype.has`. -/
def has (m : Store) (key : JSString) : Bool := (get m key).isSome

/-- The method `Map.prototype.set`; also the write-back of a mutation made
through the object reference held by the map. -/
def set : Store → JSString → Session → Store
  | [], key, v => [(key, v)]
  | (k, w) :: rest, key, v => if k = key then (k, v) :: rest else (k, w) :: set rest key v

/-- The method `Map.prototype.delete`. -/
def delete (m : Store) (key : JSString) : Store := m.filter fun e => e.1 ≠ key

/-- The property `Map.prototype.size`. -/
def size (m : Store) : Nat := m.length

/-- The invariant of a map: no key occurs twice. -/
def WF (m : Store) : Prop := (m.map Prod.fst).Nodup

instance (m : Store) : Decidable (WF m) := by unfold WF; infer_instance

end JSMap

/-! ## Requests -/

/-- The parsed JSON body of a request: `message` is `undefined` when absent;
`sessionId` is typed as an optional string by the interface. -/
structure Body where
  message : JSVal
  sessionId : Option JSString

/-- What `await session.chat.sendMessage(message)` followed by
`result.response.text()` does: the generated text or a thrown value. -/
abbrev Generation := Except JSVal JSString

/-- The state after a handler has run: the map, and the response sent
(`none` when an exception left the handler instead). -/
structure Outcome where
  chatSessions : Store
  response : Option Response

/-- Evaluation of `error.message?.includes(needle)` as a condition: `none` is
a TypeError (the thrown value is `undefined` or `null`, or its `message` has
no `includes` method). -/
def messageIncludes (error : JSVal) (needle : JSString) : Option Bool :=
  match getProp error "message" with
  | none => none
  | some .undefined => some false
  | some .null => some false
  | some (.str s) => some (includes s needle)
  | some (.arr items) => some (items.any (isStr needle))
  | some _ => none

/-- The idle threshold `30 * 60 * 1000` of the cleanup. -/
def idleThreshold : Int := 30 * 60 * 1000

/-- Lines 139-160 of `src/server.js` (120-141 of `src/api/index.js`): the
session stored under `sessionId`, or a new one that is inserted; returned
with the map. -/
def getOrCreate (chatSessions : Store) (sessionId : JSString) (nowCreate : Int) :
    Session × Store :=
  match JSMap.get chatSessions sessionId with
  | some session => (session, chatSessions)
  | none =>
    let session : Session := { chat := startChat, lastActivity := nowCreate, messageCount := 0 }
    (session, JSMap.set chatSessions sessionId session)

/-- One chat request of a sequence: the body, the two `Date.now()` readings
and what the generation call does if it is reached. -/
structure Call where
  body : Body
  nowCreate : Int
  nowTouch : Int
  gen : Generation

/-! ## The standalone server, `src/server.js` -/

namespace Server

/-- The cleanup callback of `setInterval`: every entry is visited and deleted
from the map when idle for more than the threshold. -/
def sweep (chatSessions : Store) (now : Int) : Store :=
  chatSessions.foldl
    (fun m e => if now - e.2.lastActivity > idleThreshold then JSMap.delete m e.1 else m)
    chatSessions

/-- The route `GET /health`. -/
def health (chatSessions : Store) (timestamp : JSString) : Response :=
  { status := 200
    body := some (json [("status", .str (lit "OK")), ("timestamp", .str timestamp),
      ("sessions", .num (JSMap.size chatSessions))]) }

/-- The `catch` block of the chat route. -/
def chatCatch (nodeEnv : Option JSString) (error : JSVal) : Option Response :=
  match messageIncludes error (lit "quota") with
  | none => none
  | some true =>
    some { status := 503
           body := some (json [("reply", .str (lit
             "Maaf, sistem sedang sibuk. Silakan coba lagi dalam beberapa saat."))]) }
  | some false =>
    match messageIncludes error (lit "safety") with
    | none => none
    | some true =>
      some { status := 400
             body := some (json [("reply", .str (lit
               "Maaf, pesan Anda tidak dapat diproses karena melanggar kebijakan konten."))]) }
    | some false =>
      if nodeEnv = some (lit "development") then
        match getProp error "message" with
        | none => none
        | some detail =>
          some { status := 500
                 body := some (json [("reply", .str (lit
                   "Maaf, terjadi kesalahan pada sistem. Silakan coba lagi.")),
                   ("error", detail)]) }
      else
        some { status := 500
               body := some (json [("reply", .str (lit
                 "Maaf, terjadi kesalahan pada sistem. Silakan coba lagi.")),
                 ("error", .undefined)]) }

/-- The route `POST /chat`. -/
def chat (nodeEnv : Option JSString) (chatSessions : Store) (body : Body)
    (nowCreate nowTouch : Int) (gen : Generation) : Outcome :=
  let message := body.message
  let sessionId := body.sessionId.getD (lit "default")
  if !truthy message || typeof message != JSType.string then
    { chatSessions := chatSessions
      response := some { status := 400, body := some (json [("reply", .str (lit
        "Pesan tidak valid. Silakan kirim pesan yang benar."))]) } }
  else if (trim (strData message)).length == 0 then
    { chatSessions := chatSessions
      response := some { status := 400, body := some (json [("reply", .str (lit
        "Pesan tidak boleh kosong."))]) } }
  else if (strData message).length > 5000 then
    { chatSessions := chatSessions
      response := some { status := 400, body := some (json [("reply", .str (lit
        "Pesan terlalu panjang. Maksimal 5000 karakter."))]) } }
  else
    let (session, chatSessions) := getOrCreate chatSessions sessionId nowCreate
    let session := { session with lastActivity := nowTouch,
                                  messageCount := session.messageCount + 1 }
    let chatSessions := JSMap.set chatSessions sessionId session
    if session.messageCount > 100 then
      { chatSessions := chatSessions
        response := some { status := 429, body := some (json [("reply", .str (lit
          "Terlalu banyak pesan. Silakan tunggu beberapa saat."))]) } }
    else
      let session := { session with chat := session.chat.sendMessage (strData message) }
      let chatSessions := JSMap.set chatSessions sessionId session
      match gen with
      | .ok response =>
        { chatSessions := chatSessions
          response := some { status := 200, body := some (json [("reply", .str response),
            ("sessionId", .str sessionId)]) } }
      | .error error =>
        { chatSessions := chatSessions, response := chatCatch nodeEnv error }

/-- The route `POST /reset-session`. -/
def resetSession (chatSessions : Store) (sessionId : Option JSString) : Outcome :=
  let sessionId := sessionId.getD (lit "default")
  if JSMap.has chatSessions sessionId then
    { chatSessions := JSMap.delete chatSessions sessionId
      response := some { status := 200, body := some (json [("message", .str (lit
        "Session berhasil direset"))]) } }
  else
    { chatSessions := chatSessions
      response := some { status := 404, body := some (json [("message", .str (lit
        "Session tidak ditemukan"))]) } }

/-- The fallthrough handler for unmatched routes. -/
def notFound (path : JSString) : Response :=
  { status := 404
    body := some (json [("error", .str (lit "Endpoint tidak ditemukan")),
      ("path", .str path)]) }

/-- The Express error handler; `none` when reading `err.message` throws. -/
def errorHandler (nodeEnv : Option JSString) (err : JSVal) : Option Response :=
  if nodeEnv = some (lit "development") then
    match getProp err "message" with
    | none => none
    | some detail =>
      some { status := 500
             body := some (json [("reply", .str (lit "Terjadi kesalahan pada server")),
               ("error", detail)]) }
  else
    some { status := 500
           body := some (json [("reply", .str (lit "Terjadi kesalahan pada server")),
             ("error", .undefined)]) }

end Server

/-! ## The serverless handler, `src/api/index.js` -/

namespace Api

/-- An incoming request of the serverless handler. -/
structure Request where
  method : JSString
  url : Option JSString
  body : Body

/-- The expression `req.url?.split('?')[0] || ''`: the part of the URL before
the first `?` (code unit 63), empty when there is no URL. -/
def pathOf (url : Option JSString) : JSString :=
  match url with
  | none => []
  | some u => u.takeWhile fun c => c != 63

/-- The `catch` block of the chat branch. -/
def chatCatch (error : JSVal) : Option Response :=
  match messageIncludes error (lit "quota") with
  | none => none
  | some true =>
    some { status := 503
           body := some (json [("reply", .str (lit
             "Maaf, sistem sedang sibuk. Silakan coba lagi dalam beberapa saat."))]) }
  | some false =>
    match messageIncludes error (lit "safety") with
    | none => none
    | some true =>
      some { status := 400
             body := some (json [("reply", .str (lit
               "Maaf, pesan Anda tidak dapat diproses karena melanggar kebijakan konten."))]) }
    | some false =>
      some { status := 500
             body := some (json [("reply", .str (lit
               "Maaf, terjadi kesalahan pada sistem. Silakan coba lagi."))]) }

/-- The chat branch of the handler (lines 98-181). -/
def chat (chatSessions : Store) (body : Body) (nowCreate nowTouch : Int)
    (gen : Generation) : Outcome :=
  let message := body.message
  let sessionId := body.sessionId.getD (lit "default")
  if !truthy message || typeof message != JSType.string then
    { chatSessions := chatSessions
      response := some { status := 400, body := some (json [("reply", .str (lit
        "Pesan tidak valid. Silakan kirim pesan yang benar."))]) } }
  else if (trim (strData message)).length == 0 then
    { chatSessions := chatSessions
      response := some { status := 400, body := some (json [("reply", .str (lit
        "Pesan tidak boleh kosong."))]) } }
  else if (strData message).length > 5000 then
    { chatSessions := chatSessions
      response := some { status := 400, body := some (json [("reply", .str (lit
        "Pesan terlalu panjang. Maksimal 5000 karakter."))]) } }
  else
    let (session, chatSessions) := getOrCreate chatSessions sessionId nowCreate
    let session := { session with lastActivity := nowTouch,
                                  messageCount := session.messageCount + 1 }
    let chatSessions := JSMap.set chatSessions sessionId session
    if session.messageCount > 100 then
      { chatSessions := chatSessions
        response := some { status := 429, body := some (json [("reply", .str (lit
          "Terlalu banyak pesan. Silakan tunggu beberapa saat."))]) } }
    else
      let session := { session with chat := session.chat.sendMessage (strData message) }
      let chatSessions := JSMap.set chatSessions sessionId session
      match gen with
      | .ok response =>
        { chatSessions := chatSessions
          response := some { status := 200, body := some (json [("reply", .str response),
            ("sessionId", .str sessionId)]) } }
      | .error error =>
        { chatSessions := chatSessions, response := chatCatch error }

/-- The exported `handler` (the CORS headers it sets are not part of
`Response`). -/
def handler (chatSessions : Store) (req : Request) (timestamp : JSString)
    (nowCreate nowTouch : Int) (gen : Generation) : Outcome :=
  if req.method = lit "OPTIONS" then
    { chatSessions := chatSessions, response := some { status := 200, body := none } }
  else
    let path := pathOf req.url
    if includes path (lit "/health") || (req.method = lit "GET" && path = lit "/api") then
      { chatSessions := chatSessions
        response := some { status := 200
                           body := some (json [("status", .str (lit "OK")),
                             ("timestamp", .str timestamp),
                             ("sessions", .num (JSMap.size chatSessions))]) } }
    else if req.method = lit "POST" && (includes path (lit "/chat") || path = lit "/api") then
      chat chatSessions req.body nowCreate nowTouch gen
    else
      { chatSessions := chatSessions
        response := some { status := 404
                           body := some (json [("error", .str (lit "Endpoint tidak ditemukan")),
                             ("path", .str path)]) } }

end Api

/-! ## The two entry points side by side -/

/-- The two deployment entry points; the server reads `NODE_ENV`. -/
inductive EntryPoint where
  | server (nodeEnv : Option JSString)
  | api

/-- The chat operation of an entry point. -/
def EntryPoint.chat : EntryPoint → Store → Body → Int → Int → Generation → Outcome
  | .server nodeEnv => Server.chat nodeEnv
  | .api => Api.chat

/-- The outcome of one chat request of a sequence. -/
def EntryPoint.call (ep : EntryPoint) (chatSessions : Store) (c : Call) : Outcome :=
  ep.chat chatSessions c.body c.nowCreate c.nowTouch c.gen

/-- The map after a sequence of chat requests handled one after the other. -/
def EntryPoint.run (ep : EntryPoint) (chatSessions : Store) (calls : List Call) : Store :=
  calls.foldl (fun m c => (ep.call m c).chatSessions) chatSessions

/-! ## Vocabulary of the statements -/

/-- The three validation conditions of the chat operation all pass. -/
def passesValidation (message : JSVal) : Bool :=
  !(!truthy message || typeof message != JSType.string) &&
  !((trim (strData message)).length == 0) &&
  !((strData message).length > 5000)

/-- The session id a request body addresses (`"default"` when omitted). -/
def Body.id (body : Body) : JSString := body.sessionId.getD (lit "default")

/-- The handler sent a response with this status whose `reply` field is this
text. -/
def Outcome.answers (o : Outcome) (status : Nat) (reply : String) : Prop :=
  ∃ r, o.response = some r ∧ r.status = status ∧ r.field "reply" = some (.str (lit reply))

/-- The number of entries of the map stored under `key`. -/
def JSMap.count (m : Store) (key : JSString) : Nat := (m.filter fun e => e.1 = key).length

/-- The `messageCount` stored under `key`, zero when there is no session. -/
def JSMap.countOf (m : Store) (key : JSString) : Nat :=
  match JSMap.get m key with
  | some s => s.messageCount
  | none => 0

/-- The turns submitted so far to the conversation stored under `key`. -/
def JSMap.sentOf (m : Store) (key : JSString) : List JSString :=
  match JSMap.get m key with
  | some s => s.chat.sent
  | none => []

/-! ## Auxiliary definitions -/

/-- The session the chat operation leaves under the addressed id once
validation has passed. -/
def touched (m : Store) (key : JSString) (nowTouch : Int) (message : JSString) : Session :=
  { chat :=
      if JSMap.countOf m key + 1 > 100 then { sent := JSMap.sentOf m key }
      else { sent := JSMap.sentOf m key ++ [message] }
    lastActivity := nowTouch
    messageCount := JSMap.countOf m key + 1 }

/-- The response of the chat operation of the server once validation has
passed. -/
def Server.accepted (nodeEnv : Option JSString) (m : Store) (key : JSString)
    (gen : Generation) : Option Response :=
  if JSMap.countOf m key + 1 > 100 then
    some { status := 429, body := some (json [("reply", .str (lit
      "Terlalu banyak pesan. Silakan tunggu beberapa saat."))]) }
  else
    match gen with
    | .ok response =>
      some { status := 200, body := some (json [("reply", .str response),
        ("sessionId", .str key)]) }
    | .error error => Server.chatCatch nodeEnv error

/-- The value of `NODE_ENV` that makes the server agree with an entry point. -/
def EntryPoint.env : EntryPoint → Option JSString
  | .server nodeEnv => nodeEnv
  | .api => none

/-- An accepted question with the session id omitted. -/
def sampleCall : Call :=
  { body := { message := .str (lit "Apa itu RPL?"), sessionId := none }
    nowCreate := 1000, nowTouch := 1000, gen := .ok (lit "RPL") }

/-- The keys of the entries of `l` that are idle beyond the threshold at
`now`. -/
def staleKeys (l : Store) (now : Int) : List JSString :=
  (l.filter fun e => now - e.2.lastActivity > idleThreshold).map Prod.fst

/-- A store with one session exactly at the idle threshold at time 1800000 and
one idle for one millisecond longer. -/
def sampleStore : Store :=
  [ (lit "a", { chat := startChat, lastActivity := 0, messageCount := 3 }),
    (lit "b", { chat := startChat, lastActivity := -1, messageCount := 1 }) ]

/-- A store whose "default" session is far above the rate-limit ceiling. -/
def limitedStore : Store :=
  [ (lit "default", { chat := startChat, lastActivity := 0, messageCount := 150 }) ]

/-- The description of a thrown value: the text of its `message` property
when that is a string. -/
def description (error : JSVal) : Option JSString :=
  match getProp error "message" with
  | some (.str s) => some s
  | _ => none

/-- A thrown value that is neither `undefined` nor `null` and whose `message`
is absent, `undefined`, `null` or a string. -/
def textualError (error : JSVal) : Bool :=
  match getProp error "message" with
  | some .undefined => true
  | some .null => true
  | some (.str _) => true
  | _ => false

/-- A request for a route that no entry point serves. -/
def strayRequest : Api.Request :=
  { method := lit "GET", url := some (lit "/nowhere"), body := sampleCall.body }

/-- Whether the handler sent a response with this status whose `reply` field
is this text, as a computation. -/
def Outcome.answersBool (o : Outcome) (status : Nat) (reply : String) : Bool :=
  match o.response with
  | none => false
  | some r =>
    r.status == status &&
      match r.field "reply" with
      | some (.str t) => t == lit reply
      | _ => false

instance (o : Outcome) (status : Nat) (reply : String) :
    Decidable (o.answers status reply) :=
  decidable_of_iff (o.answersBool status reply = true) (by
    unfold Outcome.answers Outcome.answersBool
    cases hr : o.response with
    | none => simp
    | some r =>
      cases hf : r.field "reply" with
      | none => simp [hf]
      | some v => cases v <;> simp [hf])

/-! ## The map operations -/

namespace JSMap

theorem get_set_self (m : Store) (k : JSString) (v : Session) : get (set m k v) k = some v := by
  induction m with
  | nil => simp [set, get]
  | cons e rest ih =>
    obtain ⟨k0, w⟩ := e
    by_cases h : k0 = k
    · simp [set, get, h]
    · simp [set, get, h, ih]

theorem get_set_other (m : Store) (k k0 : JSString) (v : Session) (h : k0 ≠ k) :
    get (set m k v) k0 = get m k0 := by
  induction m with
  | nil => simp [set, get, Ne.symm h]
  | cons e rest ih =>
    obtain ⟨k1, w⟩ := e
    by_cases h1 : k1 = k
    · subst h1
      simp [set, get, Ne.symm h]
    · by_cases h2 : k1 = k0
      · subst h2
        simp [set, get, h1]
      · simp [set, get, h1, h2, ih]

theorem set_set (m : Store) (k : JSString) (v w : Session) : set (set m k v) k w = set m k w := by
  induction m with
  | nil => simp [set]
  | cons e rest ih =>
    obtain ⟨k0, u⟩ := e
    by_cases h : k0 = k
    · simp [set, h]
    · simp [set, h, ih]

theorem length_set_some (m : Store) (k : JSString) (v s : Session) (h : get m k = some s) :
    (set m k v).length = m.length := by
  induction m with
  | nil => simp [get] at h
  | cons e rest ih =>
    obtain ⟨k0, u⟩ := e
    by_cases h0 : k0 = k
    · simp [set, h0]
    · simp only [get, h0, if_false] at h
      simp [set, h0, ih h]

theorem length_set_none (m : Store) (k : JSString) (v : Session) (h : get m k = none) :
    (set m k v).length = m.length + 1 := by
  induction m with
  | nil => simp [set]
  | cons e rest ih =>
    obtain ⟨k0, u⟩ := e
    by_cases h0 : k0 = k
    · simp [get, h0] at h
    · simp only [get, h0, if_false] at h
      simp [set, h0, ih h]

theorem count_eq_zero (m : Store) (k : JSString) (h : get m k = none) : count m k = 0 := by
  induction m with
  | nil => simp [count]
  | cons e rest ih =>
    obtain ⟨k0, u⟩ := e
    by_cases h0 : k0 = k
    · simp [get, h0] at h
    · simp only [get, h0, if_false] at h
      have := ih h
      simp only [count] at this ⊢
      simp [List.filter_cons, h0, this]

theorem count_set_none (m : Store) (k : JSString) (v : Session) (h : get m k = none) :
    count (set m k v) k = 1 := by
  induction m with
  | nil => simp [set, count]
  | cons e rest ih =>
    obtain ⟨k0, u⟩ := e
    by_cases h0 : k0 = k
    · simp [get, h0] at h
    · simp only [get, h0, if_false] at h
      have := ih h
      simp only [count] at this ⊢
      simp [set, List.filter_cons, h0, this]

theorem count_set_some (m : Store) (k : JSString) (v s : Session) (h : get m k = some s) :
    count (set m k v) k = count m k := by
  induction m with
  | nil => simp [get] at h
  | cons e rest ih =>
    obtain ⟨k0, u⟩ := e
    by_cases h0 : k0 = k
    · simp [set, count, List.filter_cons, h0]
    · simp only [get, h0, if_false] at h
      have := ih h
      simp only [count] at this ⊢
      simp [set, List.filter_cons, h0, this]

theorem get_delete_self (m : Store) (k : JSString) : get (delete m k) k = none := by
  induction m with
  | nil => simp [delete, get]
  | cons e rest ih =>
    obtain ⟨k0, u⟩ := e
    by_cases h0 : k0 = k
    · simpa [delete, List.filter_cons, h0] using ih
    · simpa [delete, List.filter_cons, h0, get] using ih

theorem get_delete_other (m : Store) (k k0 : JSString) (h : k0 ≠ k) :
    get (delete m k) k0 = get m k0 := by
  induction m with
  | nil => simp [delete, get]
  | cons e rest ih =>
    obtain ⟨k1, u⟩ := e
    by_cases h1 : k1 = k
    · subst h1
      simpa [delete, List.filter_cons, get, Ne.symm h] using ih
    · by_cases h2 : k1 = k0
      · subst h2
        simp [delete, List.filter_cons, h1, get]
      · simpa [delete, List.filter_cons, h1, get, h2] using ih

end JSMap

/-! ## The chat operation once validation has passed -/

theorem passesValidation_iff (v : JSVal) :
    passesValidation v = true ↔
      ∃ s, v = .str s ∧ (trim s).length ≠ 0 ∧ s.length ≤ 5000 := by
  cases v <;> simp [passesValidation, truthy, typeof, strData]
  intro _ h hs
  subst hs
  exact h rfl

theorem Server.chat_store (nodeEnv : Option JSString) (m : Store) (body : Body)
    (nowCreate nowTouch : Int) (gen : Generation)
    (h : passesValidation body.message = true) :
    (Server.chat nodeEnv m body nowCreate nowTouch gen).chatSessions =
      JSMap.set m body.id (touched m body.id nowTouch (strData body.message)) := by
  obtain ⟨s, hs, h1, h2⟩ := (passesValidation_iff _).1 h
  have h3 : s ≠ [] := by
    intro hc
    subst hc
    exact h1 rfl
  have h4 : ¬ (5000 < s.length) := by omega
  cases hg : JSMap.get m (body.sessionId.getD (lit "default")) with
  | none =>
    by_cases hc : 100 < 0 + 1
    · omega
    · cases gen <;>
        simp [Server.chat, hs, truthy, typeof, strData, h1, h3, h4, getOrCreate, hg, Body.id,
          touched, JSMap.countOf, JSMap.sentOf, JSMap.set_set, startChat,
          ChatSession.sendMessage]
  | some sess =>
    by_cases hc : 100 < sess.messageCount + 1
    · simp [Server.chat, hs, truthy, typeof, strData, h1, h3, h4, getOrCreate, hg, Body.id,
        touched, JSMap.countOf, JSMap.sentOf, JSMap.set_set, hc]
    · cases gen <;>
        simp [Server.chat, hs, truthy, typeof, strData, h1, h3, h4, getOrCreate, hg, Body.id,
          touched, JSMap.countOf, JSMap.sentOf, JSMap.set_set, hc, ChatSession.sendMessage]

theorem Server.chat_response (nodeEnv : Option JSString) (m : Store) (body : Body)
    (nowCreate nowTouch : Int) (gen : Generation)
    (h : passesValidation body.message = true) :
    (Server.chat nodeEnv m body nowCreate nowTouch gen).response =
      Server.accepted nodeEnv m body.id gen := by
  obtain ⟨s, hs, h1, h2⟩ := (passesValidation_iff _).1 h
  have h3 : s ≠ [] := by
    intro hc
    subst hc
    exact h1 rfl
  have h4 : ¬ (5000 < s.length) := by omega
  cases hg : JSMap.get m (body.sessionId.getD (lit "default")) with
  | none =>
    cases gen <;>
      simp [Server.chat, hs, truthy, typeof, strData, h1, h3, h4, getOrCreate, hg, Body.id,
        Server.accepted, JSMap.countOf]
  | some sess =>
    by_cases hc : 100 < sess.messageCount + 1
    · simp [Server.chat, hs, truthy, typeof, strData, h1, h3, h4, getOrCreate, hg, Body.id,
        Server.accepted, JSMap.countOf, hc]
    · cases gen <;>
        simp [Server.chat, hs, truthy, typeof, strData, h1, h3, h4, getOrCreate, hg, Body.id,
          Server.accepted, JSMap.countOf, hc]

theorem Api.chatCatch_eq (error : JSVal) : Api.chatCatch error = Server.chatCatch none error := by
  unfold Api.chatCatch Server.chatCatch
  cases messageIncludes error (lit "quota") with
  | none => rfl
  | some b =>
    cases b
    · cases messageIncludes error (lit "safety") with
      | none => rfl
      | some b2 => cases b2 <;> simp [json]
    · rfl

theorem Api.chat_eq (m : Store) (body : Body) (nowCreate nowTouch : Int) (gen : Generation) :
    Api.chat m body nowCreate nowTouch gen = Server.chat none m body nowCreate nowTouch gen := by
  unfold Api.chat Server.chat
  cases gen <;> simp only [Api.chatCatch_eq]

theorem EntryPoint.chat_eq_server (ep : EntryPoint) (m : Store) (body : Body)
    (nowCreate nowTouch : Int) (gen : Generation) :
    ep.chat m body nowCreate nowTouch gen = Server.chat ep.env m body nowCreate nowTouch gen := by
  cases ep
  · rfl
  · exact Api.chat_eq m body nowCreate nowTouch gen

theorem EntryPoint.store_of_valid (ep : EntryPoint) (m : Store) (body : Body)
    (nowCreate nowTouch : Int) (gen : Generation)
    (h : passesValidation body.message = true) :
    (ep.chat m body nowCreate nowTouch gen).chatSessions =
      JSMap.set m body.id (touched m body.id nowTouch (strData body.message)) := by
  rw [EntryPoint.chat_eq_server]
  exact Server.chat_store _ m body nowCreate nowTouch gen h

theorem EntryPoint.response_of_valid (ep : EntryPoint) (m : Store) (body : Body)
    (nowCreate nowTouch : Int) (gen : Generation)
    (h : passesValidation body.message = true) :
    (ep.chat m body nowCreate nowTouch gen).response = Server.accepted ep.env m body.id gen := by
  rw [EntryPoint.chat_eq_server]
  exact Server.chat_response _ m body nowCreate nowTouch gen h

/-! ## Sequences of accepted messages to one session -/

theorem countOf_set (m : Store) (k : JSString) (v : Session) :
    JSMap.countOf (JSMap.set m k v) k = v.messageCount := by
  simp [JSMap.countOf, JSMap.get_set_self]

theorem sentOf_set (m : Store) (k : JSString) (v : Session) :
    JSMap.sentOf (JSMap.set m k v) k = v.chat.sent := by
  simp [JSMap.sentOf, JSMap.get_set_self]

theorem EntryPoint.countOf_run (ep : EntryPoint) (key : JSString) (calls : List Call) :
    ∀ m : Store,
      (∀ c ∈ calls, passesValidation c.body.message = true ∧ c.body.id = key) →
      JSMap.countOf (ep.run m calls) key = JSMap.countOf m key + calls.length := by
  induction calls with
  | nil => intro m _; simp [EntryPoint.run]
  | cons c rest ih =>
    intro m h
    have hc := h c (List.mem_cons_self _ _)
    have hrest : ∀ x ∈ rest, passesValidation x.body.message = true ∧ x.body.id = key :=
      fun x hx => h x (List.mem_cons_of_mem _ hx)
    have step : ep.run m (c :: rest) = ep.run (ep.call m c).chatSessions rest := by
      simp [EntryPoint.run]
    rw [step, ih _ hrest, EntryPoint.call, EntryPoint.store_of_valid _ _ _ _ _ _ hc.1, hc.2,
      countOf_set]
    simp [touched]
    omega

theorem EntryPoint.count_run (ep : EntryPoint) (key : JSString) (calls : List Call) :
    ∀ m : Store,
      (∀ c ∈ calls, passesValidation c.body.message = true ∧ c.body.id = key) →
      JSMap.count (ep.run m calls) key = JSMap.count m key ∨
        (JSMap.get m key = none ∧ calls ≠ [] ∧ JSMap.count (ep.run m calls) key = 1) := by
  induction calls with
  | nil => intro m _; left; simp [EntryPoint.run]
  | cons c rest ih =>
    intro m h
    have hc := h c (List.mem_cons_self _ _)
    have hrest : ∀ x ∈ rest, passesValidation x.body.message = true ∧ x.body.id = key :=
      fun x hx => h x (List.mem_cons_of_mem _ hx)
    have step : ep.run m (c :: rest) = ep.run (ep.call m c).chatSessions rest := by
      simp [EntryPoint.run]
    have hstore := EntryPoint.store_of_valid ep m c.body c.nowCreate c.nowTouch c.gen hc.1
    rw [hc.2] at hstore
    rw [step]
    have hnext : JSMap.get (ep.call m c).chatSessions key ≠ none := by
      rw [EntryPoint.call, hstore, JSMap.get_set_self]
      simp
    rcases ih (ep.call m c).chatSessions hrest with h1 | ⟨h1, _⟩
    · rw [h1, EntryPoint.call, hstore]
      cases hg : JSMap.get m key with
      | none =>
        right
        exact ⟨rfl, by simp, JSMap.count_set_none m key _ hg⟩
      | some sess =>
        left
        exact JSMap.count_set_some m key _ sess hg
    · exact absurd h1 hnext

theorem Server.chatCatch_status (nodeEnv : Option JSString) (error : JSVal) (r : Response)
    (h : Server.chatCatch nodeEnv error = some r) :
    r.status = 503 ∨ r.status = 400 ∨ r.status = 500 := by
  unfold Server.chatCatch at h
  split at h
  · simp at h
  · simp at h; subst h; simp
  · split at h
    · simp at h
    · simp at h; subst h; simp
    · split at h
      · split at h
        · simp at h
        · simp at h; subst h; simp
      · simp at h; subst h; simp

theorem countOf_fresh (m : Store) (key : JSString) (h : JSMap.has m key = false) :
    JSMap.countOf m key = 0 := by
  simp only [JSMap.has] at h
  cases hg : JSMap.get m key with
  | none => simp [JSMap.countOf, hg]
  | some s => simp [hg] at h

/-! ## Message counting and the rate limit -/

/-- C2: after N >= 1 validation-passing chat calls to a session id that the
store did not contain, the store holds exactly one session for that id and its
messageCount is N, whatever each generation call did. -/
theorem message_count_equals_accepted_calls (ep : EntryPoint) (m : Store) (key : JSString)
    (calls : List Call) (hfresh : JSMap.has m key = false) (hne : calls ≠ [])
    (hcalls : ∀ c ∈ calls, passesValidation c.body.message = true ∧ c.body.id = key) :
    JSMap.count (ep.run m calls) key = 1 ∧
    ∃ s, JSMap.get (ep.run m calls) key = some s ∧ s.messageCount = calls.length := by
  have hget : JSMap.get m key = none := by
    simp only [JSMap.has] at hfresh
    cases hg : JSMap.get m key with
    | none => rfl
    | some s => simp [hg] at hfresh
  have hcount := EntryPoint.countOf_run ep key calls m hcalls
  rw [countOf_fresh m key hfresh] at hcount
  have hpos : 0 < calls.length := List.length_pos.2 hne
  constructor
  · rcases EntryPoint.count_run ep key calls m hcalls with h1 | ⟨_, _, h1⟩
    · cases calls with
      | nil => exact absurd rfl hne
      | cons c rest =>
        exfalso
        have hc := hcalls c (List.mem_cons_self _ _)
        have hrest : ∀ x ∈ rest, passesValidation x.body.message = true ∧ x.body.id = key :=
          fun x hx => hcalls x (List.mem_cons_of_mem _ hx)
        have step : ep.run m (c :: rest) = ep.run (ep.call m c).chatSessions rest := by
          simp [EntryPoint.run]
        have hstore := EntryPoint.store_of_valid ep m c.body c.nowCreate c.nowTouch c.gen hc.1
        rw [hc.2] at hstore
        have hone : JSMap.count (ep.call m c).chatSessions key = 1 := by
          rw [EntryPoint.call, hstore]
          exact JSMap.count_set_none m key _ hget
        have hnext : JSMap.get (ep.call m c).chatSessions key ≠ none := by
          rw [EntryPoint.call, hstore, JSMap.get_set_self]
          simp
        rw [JSMap.count_eq_zero m key hget, step] at h1
        rcases EntryPoint.count_run ep key rest (ep.call m c).chatSessions hrest with h2 | ⟨h2, _⟩
        · omega
        · exact hnext h2
    · exact h1
  · cases hg : JSMap.get (ep.run m calls) key with
    | none =>
      simp [JSMap.countOf, hg] at hcount
      omega
    | some s =>
      refine ⟨s, rfl, ?_⟩
      simpa [JSMap.countOf, hg] using hcount

/-- C2 at the scenario of the spec: two messages with the id omitted leave one
"default" session with messageCount 2. -/
theorem message_count_equals_accepted_calls_witness :
    JSMap.count (EntryPoint.run (.server none) [] [sampleCall, sampleCall]) (lit "default") = 1 ∧
    ∃ s, JSMap.get (EntryPoint.run (.server none) [] [sampleCall, sampleCall]) (lit "default")
        = some s ∧ s.messageCount = [sampleCall, sampleCall].length :=
  message_count_equals_accepted_calls (.server none) [] (lit "default")
    [sampleCall, sampleCall] (by decide) (by simp) (by decide)

/-- C1: in a sequence of validation-passing chat calls to one id that starts
from a store without it, a call numbered at most 100 is not rate-limited and
reaches the generation call; call 101 and every later one is answered 429 with
the too-many-messages reply, submits nothing to the conversation, leaves the
session in the store (size unchanged, other sessions untouched) and still
increments its messageCount. The call number is `calls.length + 1`. -/
theorem rate_limit_from_call_101 (ep : EntryPoint) (m : Store) (key : JSString)
    (calls : List Call) (c : Call) (hfresh : JSMap.has m key = false)
    (hcalls : ∀ x ∈ calls ++ [c], passesValidation x.body.message = true ∧ x.body.id = key) :
    (calls.length + 1 ≤ 100 →
      (∀ r, (ep.call (ep.run m calls) c).response = some r → r.status ≠ 429) ∧
      JSMap.sentOf (ep.call (ep.run m calls) c).chatSessions key =
        JSMap.sentOf (ep.run m calls) key ++ [strData c.body.message]) ∧
    (100 < calls.length + 1 →
      (ep.call (ep.run m calls) c).answers 429
        "Terlalu banyak pesan. Silakan tunggu beberapa saat." ∧
      JSMap.sentOf (ep.call (ep.run m calls) c).chatSessions key =
        JSMap.sentOf (ep.run m calls) key ∧
      JSMap.has (ep.call (ep.run m calls) c).chatSessions key = true ∧
      JSMap.size (ep.call (ep.run m calls) c).chatSessions = JSMap.size (ep.run m calls) ∧
      (∀ k, k ≠ key →
        JSMap.get (ep.call (ep.run m calls) c).chatSessions k = JSMap.get (ep.run m calls) k) ∧
      JSMap.countOf (ep.call (ep.run m calls) c).chatSessions key =
        JSMap.countOf (ep.run m calls) key + 1 ∧
      JSMap.countOf (ep.call (ep.run m calls) c).chatSessions key = calls.length + 1) := by
  have hprev : ∀ x ∈ calls, passesValidation x.body.message = true ∧ x.body.id = key :=
    fun x hx => hcalls x (List.mem_append_left _ hx)
  have hc := hcalls c (List.mem_append_right _ (List.mem_singleton_self c))
  have hcount := EntryPoint.countOf_run ep key calls m hprev
  rw [countOf_fresh m key hfresh, Nat.zero_add] at hcount
  have hstore := EntryPoint.store_of_valid ep (ep.run m calls) c.body c.nowCreate c.nowTouch c.gen hc.1
  have hresp := EntryPoint.response_of_valid ep (ep.run m calls) c.body c.nowCreate c.nowTouch c.gen
    hc.1
  rw [hc.2] at hstore hresp
  constructor
  · intro hle
    have hnot : ¬ (100 < calls.length + 1) := by omega
    constructor
    · intro r hr
      rw [EntryPoint.call, hresp] at hr
      simp only [Server.accepted, hcount, gt_iff_lt, hnot, if_false] at hr
      cases hgen : c.gen with
      | ok text =>
        rw [hgen] at hr
        simp at hr
        subst hr
        simp
      | error e =>
        rw [hgen] at hr
        rcases Server.chatCatch_status _ _ _ hr with h | h | h <;> omega
    · rw [EntryPoint.call, hstore, sentOf_set]
      simp [touched, hcount, hnot]
  · intro hgt
    have hsome : ∃ s, JSMap.get (ep.run m calls) key = some s := by
      cases hg : JSMap.get (ep.run m calls) key with
      | none =>
        simp [JSMap.countOf, hg] at hcount
        omega
      | some s => exact ⟨s, rfl⟩
    obtain ⟨s, hs⟩ := hsome
    refine ⟨?_, ?_, ?_, ?_, ?_, ?_, ?_⟩
    · refine ⟨{ status := 429, body := some (json [("reply", .str (lit
        "Terlalu banyak pesan. Silakan tunggu beberapa saat."))]) }, ?_, rfl, ?_⟩
      · rw [EntryPoint.call, hresp]
        simp only [Server.accepted, hcount, gt_iff_lt, hgt, if_true]
      · rfl
    · rw [EntryPoint.call, hstore, sentOf_set]
      simp [touched, hcount, hgt]
    · rw [EntryPoint.call, hstore]
      simp [JSMap.has, JSMap.get_set_self]
    · rw [EntryPoint.call, hstore]
      exact JSMap.length_set_some _ _ _ s hs
    · intro k hk
      rw [EntryPoint.call, hstore]
      exact JSMap.get_set_other _ _ _ _ hk
    · rw [EntryPoint.call, hstore, countOf_set]
      simp [touched]
    · rw [EntryPoint.call, hstore, countOf_set]
      simp [touched, hcount]

/-- C1 at call 101 of the sample question: it is answered 429. -/
theorem rate_limit_from_call_101_witness :
    (EntryPoint.call .api (EntryPoint.run .api [] (List.replicate 100 sampleCall))
      sampleCall).answers 429 "Terlalu banyak pesan. Silakan tunggu beberapa saat." :=
  ((rate_limit_from_call_101 .api [] (lit "default") (List.replicate 100 sampleCall) sampleCall
    (by decide)
    (by
      intro x hx
      have hx2 : x = sampleCall := by
        rcases List.mem_append.1 hx with h | h
        · exact (List.mem_replicate.1 h).2
        · exact List.mem_singleton.1 h
      subst hx2
      decide)).2 (by simp)).1

/-! ## The idle sweep -/

theorem sweep_fold (l : Store) (now : Int) :
    ∀ acc : Store,
      l.foldl
        (fun m e => if now - e.2.lastActivity > idleThreshold then JSMap.delete m e.1 else m)
        acc = acc.filter fun e => decide (e.1 ∉ staleKeys l now) := by
  induction l with
  | nil => intro acc; simp [staleKeys]
  | cons e rest ih =>
    intro acc
    rw [List.foldl_cons, ih]
    by_cases hs : now - e.2.lastActivity > idleThreshold
    · have hf : staleKeys (e :: rest) now = e.1 :: staleKeys rest now := by
        simp only [staleKeys]
        rw [List.filter_cons_of_pos (by simpa using hs), List.map_cons]
      simp only [hs, if_true, JSMap.delete, List.filter_filter]
      apply List.filter_congr
      intro x _
      rw [hf, Bool.eq_iff_iff]
      simp only [List.mem_cons, Bool.and_eq_true, decide_eq_true_eq, not_or, ne_eq]
      tauto
    · have hf : staleKeys (e :: rest) now = staleKeys rest now := by
        simp only [staleKeys]
        rw [List.filter_cons_of_neg (by simpa using hs)]
      simp only [hs, if_false]
      rw [hf]

theorem JSMap.WF.eq_of_key (m : Store) (h : JSMap.WF m) (a b : JSString × Session)
    (ha : a ∈ m) (hb : b ∈ m) (hk : a.1 = b.1) : a = b :=
  List.inj_on_of_nodup_map h ha hb hk

theorem JSMap.WF.filter (m : Store) (h : JSMap.WF m) (p : JSString × Session → Bool) :
    JSMap.WF (m.filter p) :=
  List.Nodup.sublist ((List.filter_sublist m).map Prod.fst) h

theorem sweep_eq_filter (m : Store) (now : Int) (h : JSMap.WF m) :
    Server.sweep m now = m.filter fun e => decide (now - e.2.lastActivity ≤ idleThreshold) := by
  rw [Server.sweep, sweep_fold]
  apply List.filter_congr
  intro x hx
  by_cases hk : now - x.2.lastActivity ≤ idleThreshold
  · have : x.1 ∉ staleKeys m now := by
      intro hmem
      simp only [staleKeys, List.mem_map, List.mem_filter] at hmem
      obtain ⟨y, ⟨hy, hstale⟩, hxy⟩ := hmem
      have := JSMap.WF.eq_of_key m h y x hy hx hxy
      subst this
      simp at hstale
      omega
    simp [this, hk]
  · have : x.1 ∈ staleKeys m now := by
      simp only [staleKeys, List.mem_map, List.mem_filter]
      refine ⟨x, ⟨hx, ?_⟩, rfl⟩
      simp
      omega
    simp [this, hk]

/-- C3: the idle sweep keeps exactly the sessions with
now - lastActivity <= 1 800 000 ms, unchanged and in order, removes every
session idle for longer, keeps a session exactly at the threshold, and a
second run at the same clock reading changes nothing. -/
theorem sweep_keeps_exactly_active (m : Store) (now : Int) (h : JSMap.WF m) :
    Server.sweep m now = m.filter (fun e => decide (now - e.2.lastActivity ≤ 1800000)) ∧
    (∀ e, e ∈ Server.sweep m now ↔ e ∈ m ∧ now - e.2.lastActivity ≤ 1800000) ∧
    (∀ e ∈ m, now - e.2.lastActivity > 1800000 → JSMap.get (Server.sweep m now) e.1 = none) ∧
    (∀ e ∈ m, now - e.2.lastActivity = 1800000 →
      JSMap.get (Server.sweep m now) e.1 = some e.2) ∧
    Server.sweep (Server.sweep m now) now = Server.sweep m now := by
  have hthr : idleThreshold = 1800000 := by decide
  have heq := sweep_eq_filter m now h
  rw [hthr] at heq
  have hmem : ∀ e, e ∈ Server.sweep m now ↔ e ∈ m ∧ now - e.2.lastActivity ≤ 1800000 := by
    intro e
    rw [heq]
    simp [List.mem_filter]
  have hwf : JSMap.WF (Server.sweep m now) := by
    rw [heq]
    exact JSMap.WF.filter m h _
  have hget : ∀ (l : Store), JSMap.WF l → ∀ e ∈ l, JSMap.get l e.1 = some e.2 := by
    intro l
    induction l with
    | nil => intro _ e he; cases he
    | cons a rest ih =>
      intro hl e he
      obtain ⟨k, v⟩ := a
      by_cases hk : k = e.1
      · have := JSMap.WF.eq_of_key _ hl (k, v) e (List.mem_cons_self _ _) he hk
        subst this
        simp [JSMap.get]
      · have he2 : e ∈ rest := by
          rcases List.mem_cons.1 he with h1 | h1
          · subst h1
            exact absurd rfl hk
          · exact h1
        have hl2 : JSMap.WF rest := by
          simp only [JSMap.WF, List.map_cons, List.nodup_cons] at hl
          exact hl.2
        simp [JSMap.get, hk, ih hl2 e he2]
  have hnone : ∀ (l : Store) (k : JSString), (∀ e ∈ l, e.1 ≠ k) → JSMap.get l k = none := by
    intro l k
    induction l with
    | nil => intro _; rfl
    | cons a rest ih =>
      intro hl
      obtain ⟨k0, v⟩ := a
      have h0 : k0 ≠ k := hl (k0, v) (List.mem_cons_self _ _)
      simp [JSMap.get, h0, ih (fun e he => hl e (List.mem_cons_of_mem _ he))]
  refine ⟨heq, hmem, ?_, ?_, ?_⟩
  · intro e he hstale
    apply hnone
    intro x hx hxe
    have hx2 := (hmem x).1 hx
    have := JSMap.WF.eq_of_key m h x e hx2.1 he hxe
    subst this
    omega
  · intro e he hb
    exact hget _ hwf e ((hmem e).2 ⟨he, by omega⟩)
  · have h2 := sweep_eq_filter (Server.sweep m now) now hwf
    rw [h2, hthr]
    rw [List.filter_eq_self]
    intro e he
    have := ((hmem e).1 he).2
    simpa using this

/-- C3 on the sample store: the session at the threshold stays, the other
goes. -/
theorem sweep_keeps_exactly_active_witness :
    JSMap.WF sampleStore ∧
    Server.sweep sampleStore 1800000 =
      sampleStore.filter (fun e => decide ((1800000 : Int) - e.2.lastActivity ≤ 1800000)) :=
  ⟨by decide, (sweep_keeps_exactly_active sampleStore 1800000 (by decide)).1⟩

/-! ## Validation -/

theorem trim_eq_nil_iff (s : JSString) : trim s = [] ↔ ∀ c ∈ s, isWhiteSpace c = true := by
  unfold trim
  rw [List.reverse_eq_nil_iff, List.dropWhile_eq_nil_iff]
  constructor
  · intro h c hc
    by_contra hw
    have hmem : c ∈ s.dropWhile isWhiteSpace := by
      induction s with
      | nil => cases hc
      | cons a rest ih =>
        by_cases ha : isWhiteSpace a = true
        · rcases List.mem_cons.1 hc with h1 | h1
          · subst h1; exact absurd ha hw
          · rw [List.dropWhile_cons_of_pos ha] at h ⊢
            exact ih h h1
        · rw [List.dropWhile_cons_of_neg ha]
          exact hc
    have h2 := h c (List.mem_reverse.2 hmem)
    exact hw h2
  · intro h c hc
    have hc2 : c ∈ s.dropWhile isWhiteSpace := List.mem_reverse.1 hc
    exact h c ((List.dropWhile_sublist _).subset hc2)

theorem answers_reply_only (m : Store) (status status2 : Nat) (text : JSString)
    (reply : String) :
    Outcome.answers
      { chatSessions := m
        response := some { status := status, body := some (json [("reply", .str text)]) } }
      status2 reply ↔ status = status2 ∧ text = lit reply := by
  unfold Outcome.answers
  constructor
  · rintro ⟨r, hr, hs, hf⟩
    simp only [Option.some.injEq] at hr
    subst hr
    simp [Response.field, json] at hf
    exact ⟨hs, hf⟩
  · rintro ⟨hs, ht⟩
    refine ⟨_, rfl, hs, ?_⟩
    simp [Response.field, json, ht]

theorem Server.chat_invalid (nodeEnv : Option JSString) (m : Store) (body : Body)
    (nowCreate nowTouch : Int) (gen : Generation)
    (h : typeof body.message ≠ JSType.string ∨ body.message = .str []) :
    Server.chat nodeEnv m body nowCreate nowTouch gen =
      { chatSessions := m
        response := some { status := 400, body := some (json [("reply", .str (lit
          "Pesan tidak valid. Silakan kirim pesan yang benar."))]) } } := by
  rcases h with h | h
  · simp [Server.chat, h]
  · simp [Server.chat, h, truthy]

theorem Server.chat_empty (nodeEnv : Option JSString) (m : Store) (body : Body)
    (nowCreate nowTouch : Int) (gen : Generation) (s : JSString)
    (hs : body.message = .str s) (hne : s ≠ []) (ht : trim s = []) :
    Server.chat nodeEnv m body nowCreate nowTouch gen =
      { chatSessions := m
        response := some { status := 400, body := some (json [("reply", .str (lit
          "Pesan tidak boleh kosong."))]) } } := by
  simp [Server.chat, hs, truthy, typeof, strData, hne, ht]

theorem Server.chat_too_long (nodeEnv : Option JSString) (m : Store) (body : Body)
    (nowCreate nowTouch : Int) (gen : Generation) (s : JSString)
    (hs : body.message = .str s) (ht : trim s ≠ []) (hl : 5000 < s.length) :
    Server.chat nodeEnv m body nowCreate nowTouch gen =
      { chatSessions := m
        response := some { status := 400, body := some (json [("reply", .str (lit
          "Pesan terlalu panjang. Maksimal 5000 karakter."))]) } } := by
  have hne : s ≠ [] := by
    intro hc
    subst hc
    exact ht rfl
  simp [Server.chat, hs, truthy, typeof, strData, hne, ht, hl]

theorem Server.accepted_reply_of_400 (nodeEnv : Option JSString) (m : Store) (key : JSString)
    (gen : Generation) (r : Response) (h : Server.accepted nodeEnv m key gen = some r)
    (h400 : r.status = 400) :
    r.field "reply" = some (.str (lit
      "Maaf, pesan Anda tidak dapat diproses karena melanggar kebijakan konten.")) := by
  unfold Server.accepted at h
  split at h
  · simp at h; subst h; simp at h400
  · split at h
    · simp at h; subst h; simp at h400
    · unfold Server.chatCatch at h
      split at h
      · simp at h
      · simp at h; subst h; simp at h400
      · split at h
        · simp at h
        · simp at h; subst h; simp [Response.field, json]
        · split at h
          · split at h
            · simp at h
            · simp at h; subst h; simp at h400
          · simp at h; subst h; simp at h400

/-- The outcome of the chat operation on a message that passed validation
never carries one of the three validation replies. -/
theorem EntryPoint.accepted_not_answers (ep : EntryPoint) (m : Store) (body : Body)
    (nowCreate nowTouch : Int) (gen : Generation)
    (h : passesValidation body.message = true) (reply : String)
    (hr : lit reply ≠ lit
      "Maaf, pesan Anda tidak dapat diproses karena melanggar kebijakan konten.") :
    ¬ (ep.chat m body nowCreate nowTouch gen).answers 400 reply := by
  rintro ⟨r, hresp, hs, hf⟩
  rw [EntryPoint.response_of_valid ep m body nowCreate nowTouch gen h] at hresp
  have := Server.accepted_reply_of_400 _ _ _ _ r hresp hs
  rw [this] at hf
  simp only [Option.some.injEq, JSVal.str.injEq] at hf
  exact hr hf.symm

/-- C4: a text message whose trimmed form is non-empty is answered 400 with
the too-long reply exactly when its length exceeds 5000; length 5001 is
rejected, and a message of length 5000 passes validation and its session is
resolved and touched. -/
theorem too_long_iff_length_above_5000 (ep : EntryPoint) (m : Store) (s : JSString)
    (sessionId : Option JSString) (nowCreate nowTouch : Int) (gen : Generation)
    (htrim : (trim s).length ≠ 0) :
    ((ep.chat m { message := .str s, sessionId := sessionId } nowCreate nowTouch gen).answers 400
        "Pesan terlalu panjang. Maksimal 5000 karakter." ↔ s.length > 5000) ∧
    (s.length = 5001 →
      (ep.chat m { message := .str s, sessionId := sessionId } nowCreate nowTouch gen).answers 400
        "Pesan terlalu panjang. Maksimal 5000 karakter.") ∧
    (s.length = 5000 →
      passesValidation (.str s) = true ∧
      ∃ sess,
        JSMap.get (ep.chat m { message := .str s, sessionId := sessionId } nowCreate nowTouch
          gen).chatSessions (sessionId.getD (lit "default")) = some sess ∧
        sess.lastActivity = nowTouch ∧
        sess.messageCount = JSMap.countOf m (sessionId.getD (lit "default")) + 1) := by
  have ht : trim s ≠ [] := by
    intro hc
    rw [hc] at htrim
    exact htrim rfl
  have hlong : 5000 < s.length →
      (ep.chat m { message := .str s, sessionId := sessionId } nowCreate nowTouch gen).answers 400
        "Pesan terlalu panjang. Maksimal 5000 karakter." := by
    intro hl
    rw [EntryPoint.chat_eq_server, Server.chat_too_long _ m _ nowCreate nowTouch gen s rfl ht hl]
    exact (answers_reply_only _ _ _ _ _).2 ⟨rfl, rfl⟩
  have hvalid : s.length ≤ 5000 → passesValidation (.str s) = true := by
    intro hl
    exact (passesValidation_iff _).2 ⟨s, rfl, htrim, hl⟩
  refine ⟨⟨?_, hlong⟩, ?_, ?_⟩
  · intro hans
    by_contra hl
    have hv := hvalid (by omega)
    exact EntryPoint.accepted_not_answers ep m { message := .str s, sessionId := sessionId }
      nowCreate nowTouch gen hv _ (by decide) hans
  · intro hl
    exact hlong (by omega)
  · intro hl
    have hv := hvalid (by omega)
    refine ⟨hv, touched m (sessionId.getD (lit "default")) nowTouch s, ?_, rfl, rfl⟩
    rw [EntryPoint.store_of_valid ep m { message := .str s, sessionId := sessionId } nowCreate
      nowTouch gen hv]
    exact JSMap.get_set_self _ _ _

/-- C4 at the boundary: 5000 letters "a" sent to an empty store pass
validation and create the "default" session with messageCount 1. -/
theorem too_long_iff_length_above_5000_witness :
    passesValidation (.str (List.replicate 5000 97)) = true ∧
    ∃ sess,
      JSMap.get (EntryPoint.chat (.server none) []
        { message := .str (List.replicate 5000 97), sessionId := none } 7 9
        (.ok (lit "ok"))).chatSessions ((none : Option JSString).getD (lit "default"))
        = some sess ∧
      sess.lastActivity = 9 ∧
      sess.messageCount = JSMap.countOf [] ((none : Option JSString).getD (lit "default")) + 1 :=
  (too_long_iff_length_above_5000 (.server none) [] (List.replicate 5000 97) none 7 9
    (.ok (lit "ok"))
    (by
      intro h
      have h2 := (trim_eq_nil_iff _).1 (List.length_eq_zero.1 h) 97
        (List.mem_replicate.2 ⟨by decide, rfl⟩)
      exact absurd h2 (by decide))).2.2 (List.length_replicate 5000 97)

/-- C5: a message of one or more whitespace characters, of any length, is
answered 400 with the empty-message reply and leaves the store exactly as it
was (no session created or touched, nothing submitted to any conversation). -/
theorem whitespace_only_rejected_without_effect (ep : EntryPoint) (m : Store) (s : JSString)
    (sessionId : Option JSString) (nowCreate nowTouch : Int) (gen : Generation)
    (hne : s ≠ []) (hws : ∀ c ∈ s, isWhiteSpace c = true) :
    (ep.chat m { message := .str s, sessionId := sessionId } nowCreate nowTouch gen).answers 400
      "Pesan tidak boleh kosong." ∧
    (ep.chat m { message := .str s, sessionId := sessionId } nowCreate nowTouch gen).chatSessions
      = m := by
  have ht : trim s = [] := (trim_eq_nil_iff s).2 hws
  rw [EntryPoint.chat_eq_server, Server.chat_empty _ m _ nowCreate nowTouch gen s rfl hne ht]
  exact ⟨(answers_reply_only _ _ _ _ _).2 ⟨rfl, rfl⟩, rfl⟩

/-- C5 on 5001 spaces sent to the sample store: the empty-message reply, not
the too-long one, and the store is untouched. -/
theorem whitespace_only_rejected_without_effect_witness :
    (EntryPoint.chat .api sampleStore
      { message := .str (List.replicate 5001 32), sessionId := some (lit "a") } 7 9
      (.ok (lit "ok"))).answers 400 "Pesan tidak boleh kosong." ∧
    (EntryPoint.chat .api sampleStore
      { message := .str (List.replicate 5001 32), sessionId := some (lit "a") } 7 9
      (.ok (lit "ok"))).chatSessions = sampleStore :=
  whitespace_only_rejected_without_effect .api sampleStore (List.replicate 5001 32)
    (some (lit "a")) 7 9 (.ok (lit "ok"))
    (by
      intro h
      have h2 := congrArg List.length h
      rw [List.length_replicate, List.length_nil] at h2
      exact absurd h2 (by decide))
    (by
      intro c hc
      rw [(List.mem_replicate.1 hc).2]
      decide)

/-- C6, as stated, fails at the zero-length string: it is text, yet both entry
points answer it with the invalid-message reply and not with the
empty-message reply. -/
theorem zero_length_text_answered_invalid :
    typeof (.str []) = JSType.string ∧
    (EntryPoint.chat (.server none) [] { message := .str [], sessionId := none } 0 0
      (.ok (lit "ok"))).answers 400 "Pesan tidak valid. Silakan kirim pesan yang benar." ∧
    (EntryPoint.chat .api [] { message := .str [], sessionId := none } 0 0
      (.ok (lit "ok"))).answers 400 "Pesan tidak valid. Silakan kirim pesan yang benar." ∧
    ¬ (EntryPoint.chat (.server none) [] { message := .str [], sessionId := none } 0 0
      (.ok (lit "ok"))).answers 400 "Pesan tidak boleh kosong." ∧
    ¬ ((EntryPoint.chat (.server none) [] { message := .str [], sessionId := none } 0 0
        (.ok (lit "ok"))).answers 400 "Pesan tidak valid. Silakan kirim pesan yang benar." ↔
      typeof (.str []) ≠ JSType.string) := by
  have hs : (EntryPoint.chat (.server none) [] { message := .str [], sessionId := none } 0 0
      (.ok (lit "ok"))).answers 400 "Pesan tidak valid. Silakan kirim pesan yang benar." := by
    rw [EntryPoint.chat_eq_server, Server.chat_invalid _ _ _ _ _ _ (Or.inr rfl)]
    exact (answers_reply_only _ _ _ _ _).2 ⟨rfl, rfl⟩
  refine ⟨rfl, hs, ?_, ?_, ?_⟩
  · rw [EntryPoint.chat_eq_server, Server.chat_invalid _ _ _ _ _ _ (Or.inr rfl)]
    exact (answers_reply_only _ _ _ _ _).2 ⟨rfl, rfl⟩
  · rw [EntryPoint.chat_eq_server, Server.chat_invalid _ _ _ _ _ _ (Or.inr rfl), answers_reply_only]
    rintro ⟨_, h⟩
    exact absurd h (by decide)
  · intro hiff
    exact (hiff.1 hs) rfl

/-- C6, amended: the invalid-message rejection is given exactly when the
message is absent, is not text, or is the zero-length string; the
empty-message rejection is given exactly to non-empty text whose trimmed form
is empty (so such text is never answered as invalid). -/
theorem invalid_message_iff_not_nonempty_text (ep : EntryPoint) (m : Store) (body : Body)
    (nowCreate nowTouch : Int) (gen : Generation) :
    ((ep.chat m body nowCreate nowTouch gen).answers 400
        "Pesan tidak valid. Silakan kirim pesan yang benar." ↔
      (typeof body.message ≠ JSType.string ∨ body.message = .str [])) ∧
    ((ep.chat m body nowCreate nowTouch gen).answers 400 "Pesan tidak boleh kosong." ↔
      ∃ s, body.message = .str s ∧ s ≠ [] ∧ trim s = []) := by
  by_cases hA : typeof body.message ≠ JSType.string ∨ body.message = .str []
  · rw [EntryPoint.chat_eq_server, Server.chat_invalid _ m body nowCreate nowTouch gen hA]
    rw [answers_reply_only, answers_reply_only]
    refine ⟨⟨fun _ => hA, fun _ => ⟨rfl, rfl⟩⟩, ⟨?_, ?_⟩⟩
    · rintro ⟨_, h⟩
      exact absurd h (by decide)
    · rintro ⟨s, hs, hne, _⟩
      rcases hA with h | h
      · rw [hs] at h
        exact absurd rfl h
      · rw [hs] at h
        simp only [JSVal.str.injEq] at h
        exact absurd h hne
  · have hstr : ∃ s, body.message = .str s ∧ s ≠ [] := by
      cases hm : body.message with
      | str s =>
        refine ⟨s, rfl, ?_⟩
        intro hc
        subst hc
        exact hA (Or.inr hm)
      | undefined => exact absurd (Or.inl (by simp [hm, typeof])) hA
      | null => exact absurd (Or.inl (by simp [hm, typeof])) hA
      | bool b => exact absurd (Or.inl (by simp [hm, typeof])) hA
      | num n => exact absurd (Or.inl (by simp [hm, typeof])) hA
      | arr items => exact absurd (Or.inl (by simp [hm, typeof])) hA
      | obj fields => exact absurd (Or.inl (by simp [hm, typeof])) hA
    obtain ⟨s, hs, hne⟩ := hstr
    by_cases ht : trim s = []
    · rw [EntryPoint.chat_eq_server, Server.chat_empty _ m body nowCreate nowTouch gen s hs hne ht]
      rw [answers_reply_only, answers_reply_only]
      refine ⟨⟨?_, fun h => absurd h hA⟩, ⟨fun _ => ⟨s, hs, hne, ht⟩, fun _ => ⟨rfl, rfl⟩⟩⟩
      rintro ⟨_, h⟩
      exact absurd h (by decide)
    · have hno : ¬ ∃ s, body.message = .str s ∧ s ≠ [] ∧ trim s = [] := by
        rintro ⟨s2, hs2, _, ht2⟩
        rw [hs] at hs2
        simp only [JSVal.str.injEq] at hs2
        subst hs2
        exact ht ht2
      by_cases hl : 5000 < s.length
      · rw [EntryPoint.chat_eq_server, Server.chat_too_long _ m body nowCreate nowTouch gen s hs ht hl]
        rw [answers_reply_only, answers_reply_only]
        refine ⟨⟨?_, fun h => absurd h hA⟩, ⟨?_, fun h => absurd h hno⟩⟩
        · rintro ⟨_, h⟩
          exact absurd h (by decide)
        · rintro ⟨_, h⟩
          exact absurd h (by decide)
      · have hv : passesValidation body.message = true :=
          (passesValidation_iff _).2 ⟨s, hs, by
            intro h0
            exact ht (List.length_eq_zero.1 h0), by omega⟩
        refine ⟨⟨?_, fun h => absurd h hA⟩, ⟨?_, fun h => absurd h hno⟩⟩
        · intro h
          exact absurd h (EntryPoint.accepted_not_answers ep m body nowCreate nowTouch gen hv _
            (by decide))
        · intro h
          exact absurd h (EntryPoint.accepted_not_answers ep m body nowCreate nowTouch gen hv _
            (by decide))

/-! ## Reset -/

/-- C7: the reset operation answers 200 exactly when the store contained the
id (omitted meaning "default") and 404 otherwise; after a 200 the id is absent
and every other session is unchanged, after a 404 the store is unchanged; and
a validation-passing chat message to that id right after a successful reset
leaves a session whose messageCount is 1, whatever the count was before. -/
theorem reset_session_contract (m : Store) (sessionId : Option JSString) :
    ((∃ r, (Server.resetSession m sessionId).response = some r ∧ r.status = 200) ↔
      JSMap.has m (sessionId.getD (lit "default")) = true) ∧
    ((∃ r, (Server.resetSession m sessionId).response = some r ∧ r.status = 404) ↔
      JSMap.has m (sessionId.getD (lit "default")) = false) ∧
    (JSMap.has m (sessionId.getD (lit "default")) = true →
      JSMap.get (Server.resetSession m sessionId).chatSessions (sessionId.getD (lit "default"))
        = none ∧
      ∀ k, k ≠ sessionId.getD (lit "default") →
        JSMap.get (Server.resetSession m sessionId).chatSessions k = JSMap.get m k) ∧
    (JSMap.has m (sessionId.getD (lit "default")) = false →
      (Server.resetSession m sessionId).chatSessions = m) ∧
    (JSMap.has m (sessionId.getD (lit "default")) = true →
      ∀ (ep : EntryPoint) (body : Body) (nowCreate nowTouch : Int) (gen : Generation),
        passesValidation body.message = true →
        body.id = sessionId.getD (lit "default") →
        ∃ sess,
          JSMap.get (ep.chat (Server.resetSession m sessionId).chatSessions body nowCreate
            nowTouch gen).chatSessions (sessionId.getD (lit "default")) = some sess ∧
          sess.messageCount = 1) := by
  by_cases h : JSMap.has m (sessionId.getD (lit "default")) = true
  · have hout : Server.resetSession m sessionId =
        { chatSessions := JSMap.delete m (sessionId.getD (lit "default"))
          response := some { status := 200, body := some (json [("message", .str (lit
            "Session berhasil direset"))]) } } := by
      simp [Server.resetSession, h]
    rw [hout]
    refine ⟨⟨fun _ => h, fun _ => ⟨_, rfl, rfl⟩⟩, ⟨?_, ?_⟩, ?_, ?_, ?_⟩
    · rintro ⟨r, hr, hs⟩
      simp only [Option.some.injEq] at hr
      subst hr
      simp at hs
    · intro hc
      rw [h] at hc
      exact absurd hc (by decide)
    · intro _
      exact ⟨JSMap.get_delete_self _ _, fun k hk => JSMap.get_delete_other _ _ _ hk⟩
    · intro hc
      rw [h] at hc
      exact absurd hc (by decide)
    · intro _ ep body nowCreate nowTouch gen hv hid
      refine ⟨touched (JSMap.delete m (sessionId.getD (lit "default")))
        (sessionId.getD (lit "default")) nowTouch (strData body.message), ?_, ?_⟩
      · rw [EntryPoint.store_of_valid ep _ body nowCreate nowTouch gen hv, hid]
        exact JSMap.get_set_self _ _ _
      · simp [touched, JSMap.countOf, JSMap.get_delete_self]
  · have h2 : JSMap.has m (sessionId.getD (lit "default")) = false := by
      simpa using h
    have hout : Server.resetSession m sessionId =
        { chatSessions := m
          response := some { status := 404, body := some (json [("message", .str (lit
            "Session tidak ditemukan"))]) } } := by
      simp [Server.resetSession, h2]
    rw [hout]
    refine ⟨⟨?_, fun hc => absurd hc h⟩, ⟨fun _ => h2, fun _ => ⟨_, rfl, rfl⟩⟩, ?_, ?_, ?_⟩
    · rintro ⟨r, hr, hs⟩
      simp only [Option.some.injEq] at hr
      subst hr
      simp at hs
    · intro hc
      exact absurd hc h
    · intro _
      rfl
    · intro hc
      exact absurd hc h

/-- C7 on a rate-limited "default" session: after the reset, the next accepted
message leaves messageCount 1. -/
theorem reset_session_contract_witness :
    JSMap.has limitedStore ((none : Option JSString).getD (lit "default")) = true ∧
    ∃ sess,
      JSMap.get (EntryPoint.chat (.server none)
        (Server.resetSession limitedStore none).chatSessions sampleCall.body 5 6
        (.ok (lit "ok"))).chatSessions ((none : Option JSString).getD (lit "default"))
        = some sess ∧
      sess.messageCount = 1 :=
  ⟨by decide,
    (reset_session_contract limitedStore none).2.2.2.2 (by decide) (.server none)
      sampleCall.body 5 6 (.ok (lit "ok")) (by decide) (by decide)⟩

/-! ## Failures of the generation call -/

theorem answers_of_response (o : Outcome) (status : Nat) (reply : String) (r : Response)
    (h : o.response = some r) (hs : r.status = status)
    (hf : r.field "reply" = some (.str (lit reply))) : o.answers status reply :=
  ⟨r, h, hs, hf⟩

/-- C8, as stated, fails for a thrown `null`, a thrown `undefined` and an
error whose description is a number: the catch block itself throws and the
handler sends no response, in both entry points. -/
theorem thrown_null_escapes_catch :
    (EntryPoint.chat (.server none) [] sampleCall.body 0 0 (.error .null)).response = none ∧
    (EntryPoint.chat .api [] sampleCall.body 0 0 (.error .null)).response = none ∧
    (EntryPoint.chat .api [] sampleCall.body 0 0 (.error .undefined)).response = none ∧
    (EntryPoint.chat .api [] sampleCall.body 0 0
      (.error (.obj [("message", .num 42)]))).response = none := by
  have hv : passesValidation sampleCall.body.message = true := by decide
  refine ⟨?_, ?_, ?_, ?_⟩ <;>
    rw [EntryPoint.response_of_valid _ _ _ _ _ _ hv] <;>
    simp [Server.accepted, JSMap.countOf, JSMap.get, Server.chatCatch, messageIncludes, getProp,
      lookupField]

/-- C8, amended: when the chat operation fails (the generation call of an
accepted, not rate-limited message throws) with a value that is neither
`undefined` nor `null` and whose description is absent or text, exactly one
response is sent and nothing propagates: 503 with the
system-busy reply when the description contains "quota" (also when it contains
"safety" as well); otherwise 400 with the content-policy reply when it
contains "safety"; otherwise, and when there is no description, 500 with the
generic reply. -/
theorem generation_failure_mapping (ep : EntryPoint) (m : Store) (body : Body)
    (nowCreate nowTouch : Int) (error : JSVal)
    (hv : passesValidation body.message = true) (hlim : JSMap.countOf m body.id < 100)
    (herr : textualError error = true) :
    (∀ s, description error = some s → includes s (lit "quota") = true →
      (ep.chat m body nowCreate nowTouch (.error error)).answers 503
        "Maaf, sistem sedang sibuk. Silakan coba lagi dalam beberapa saat.") ∧
    (∀ s, description error = some s → includes s (lit "quota") = false →
      includes s (lit "safety") = true →
      (ep.chat m body nowCreate nowTouch (.error error)).answers 400
        "Maaf, pesan Anda tidak dapat diproses karena melanggar kebijakan konten.") ∧
    (∀ s, description error = some s → includes s (lit "quota") = false →
      includes s (lit "safety") = false →
      (ep.chat m body nowCreate nowTouch (.error error)).answers 500
        "Maaf, terjadi kesalahan pada sistem. Silakan coba lagi.") ∧
    (description error = none →
      (ep.chat m body nowCreate nowTouch (.error error)).answers 500
        "Maaf, terjadi kesalahan pada sistem. Silakan coba lagi.") := by
  have hresp := EntryPoint.response_of_valid ep m body nowCreate nowTouch (.error error) hv
  have hnot : ¬ (100 < JSMap.countOf m body.id + 1) := by omega
  simp only [Server.accepted, gt_iff_lt, hnot, if_false] at hresp
  cases hp : getProp error "message" with
  | none => simp [textualError, hp] at herr
  | some d =>
    cases d with
    | undefined =>
      refine ⟨?_, ?_, ?_, ?_⟩
      · intro s hs; simp [description, hp] at hs
      · intro s hs; simp [description, hp] at hs
      · intro s hs; simp [description, hp] at hs
      · intro _
        by_cases hdev : ep.env = some (lit "development")
        · exact answers_of_response _ _ _ _
            (by rw [hresp]; simp [Server.chatCatch, messageIncludes, hp, hdev]; rfl) rfl
            (by simp [Response.field, json])
        · exact answers_of_response _ _ _ _
            (by rw [hresp]; simp [Server.chatCatch, messageIncludes, hp, hdev]; rfl) rfl
            (by simp [Response.field, json])
    | null =>
      refine ⟨?_, ?_, ?_, ?_⟩
      · intro s hs; simp [description, hp] at hs
      · intro s hs; simp [description, hp] at hs
      · intro s hs; simp [description, hp] at hs
      · intro _
        by_cases hdev : ep.env = some (lit "development")
        · exact answers_of_response _ _ _ _
            (by rw [hresp]; simp [Server.chatCatch, messageIncludes, hp, hdev]; rfl) rfl
            (by simp [Response.field, json])
        · exact answers_of_response _ _ _ _
            (by rw [hresp]; simp [Server.chatCatch, messageIncludes, hp, hdev]; rfl) rfl
            (by simp [Response.field, json])
    | str t =>
      have hd : description error = some t := by simp [description, hp]
      refine ⟨?_, ?_, ?_, ?_⟩
      · intro s hs hq
        rw [hd] at hs
        simp only [Option.some.injEq] at hs
        subst hs
        exact answers_of_response _ _ _ _
          (by rw [hresp]; simp [Server.chatCatch, messageIncludes, hp, hq]; rfl) rfl
          (by simp [Response.field, json])
      · intro s hs hq hsafe
        rw [hd] at hs
        simp only [Option.some.injEq] at hs
        subst hs
        exact answers_of_response _ _ _ _
          (by rw [hresp]; simp [Server.chatCatch, messageIncludes, hp, hq, hsafe]; rfl) rfl
          (by simp [Response.field, json])
      · intro s hs hq hsafe
        rw [hd] at hs
        simp only [Option.some.injEq] at hs
        subst hs
        by_cases hdev : ep.env = some (lit "development")
        · exact answers_of_response _ _ _ _
            (by rw [hresp]; simp [Server.chatCatch, messageIncludes, hp, hq, hsafe, hdev]; rfl)
            rfl (by simp [Response.field, json])
        · exact answers_of_response _ _ _ _
            (by rw [hresp]; simp [Server.chatCatch, messageIncludes, hp, hq, hsafe, hdev]; rfl)
            rfl (by simp [Response.field, json])
      · intro hn
        rw [hd] at hn
        simp at hn
    | bool b => simp [textualError, hp] at herr
    | num n => simp [textualError, hp] at herr
    | arr items => simp [textualError, hp] at herr
    | obj fields => simp [textualError, hp] at herr

/-- C8 on an error whose description names both indicators: 503. -/
theorem generation_failure_mapping_witness :
    (EntryPoint.chat (.server (some (lit "development"))) [] sampleCall.body 0 0
      (.error (.obj [("message", .str (lit "quota hit by safety"))]))).answers 503
      "Maaf, sistem sedang sibuk. Silakan coba lagi dalam beberapa saat." :=
  (generation_failure_mapping (.server (some (lit "development"))) [] sampleCall.body 0 0
    (.obj [("message", .str (lit "quota hit by safety"))])
    (by decide) (by decide) (by decide)).1 (lit "quota hit by safety") (by decide) (by decide)

/-! ## Shape of the error responses -/

theorem Server.chat_rejected_or_valid (m : Store) (body : Body) (nowCreate nowTouch : Int)
    (gen : Generation) :
    (∃ text, ∀ nodeEnv, Server.chat nodeEnv m body nowCreate nowTouch gen =
      { chatSessions := m
        response := some { status := 400, body := some (json [("reply", .str text)]) } }) ∨
    passesValidation body.message = true := by
  by_cases hA : typeof body.message ≠ JSType.string ∨ body.message = .str []
  · exact Or.inl ⟨_, fun nodeEnv => Server.chat_invalid nodeEnv m body nowCreate nowTouch gen hA⟩
  · have hstr : ∃ s, body.message = .str s ∧ s ≠ [] := by
      cases hm : body.message with
      | str s =>
        refine ⟨s, rfl, ?_⟩
        intro hc
        subst hc
        exact hA (Or.inr hm)
      | undefined => exact absurd (Or.inl (by simp [hm, typeof])) hA
      | null => exact absurd (Or.inl (by simp [hm, typeof])) hA
      | bool b => exact absurd (Or.inl (by simp [hm, typeof])) hA
      | num n => exact absurd (Or.inl (by simp [hm, typeof])) hA
      | arr items => exact absurd (Or.inl (by simp [hm, typeof])) hA
      | obj fields => exact absurd (Or.inl (by simp [hm, typeof])) hA
    obtain ⟨s, hs, hne⟩ := hstr
    by_cases ht : trim s = []
    · exact Or.inl ⟨_, fun nodeEnv =>
        Server.chat_empty nodeEnv m body nowCreate nowTouch gen s hs hne ht⟩
    · by_cases hl : 5000 < s.length
      · exact Or.inl ⟨_, fun nodeEnv =>
          Server.chat_too_long nodeEnv m body nowCreate nowTouch gen s hs ht hl⟩
      · exact Or.inr ((passesValidation_iff _).2 ⟨s, hs, by
          intro h0
          exact ht (List.length_eq_zero.1 h0), by omega⟩)

theorem Server.chatCatch_agree (nodeEnv : Option JSString) (error : JSVal) :
    (Server.chatCatch nodeEnv error).map Response.status =
      (Server.chatCatch none error).map Response.status ∧
    (Server.chatCatch nodeEnv error).map (fun r => r.field "reply") =
      (Server.chatCatch none error).map (fun r => r.field "reply") ∧
    (Server.chatCatch nodeEnv error).map (fun r => r.field "sessionId") =
      (Server.chatCatch none error).map (fun r => r.field "sessionId") := by
  unfold Server.chatCatch messageIncludes
  cases hp : getProp error "message" with
  | none => simp
  | some d =>
    by_cases hdev : nodeEnv = some (lit "development")
    · cases d with
      | undefined => simp [hdev, Response.field, json]
      | null => simp [hdev, Response.field, json]
      | bool b => simp
      | num n => simp
      | obj fields => simp
      | str t =>
        cases hq : includes t (lit "quota") <;> cases hsf : includes t (lit "safety") <;>
          simp [hdev, hq, hsf, Response.field, json]
      | arr items =>
        cases hq : items.any (isStr (lit "quota")) <;>
          cases hsf : items.any (isStr (lit "safety")) <;>
          simp [hdev, hq, hsf, Response.field, json]
    · cases d with
      | undefined => simp [hdev]
      | null => simp [hdev]
      | bool b => simp
      | num n => simp
      | obj fields => simp
      | str t =>
        cases hq : includes t (lit "quota") <;> cases hsf : includes t (lit "safety") <;>
          simp [hdev, hq, hsf, Response.field, json]
      | arr items =>
        cases hq : items.any (isStr (lit "quota")) <;>
          cases hsf : items.any (isStr (lit "safety")) <;>
          simp [hdev, hq, hsf, Response.field, json]

theorem Server.chatCatch_hasReply (nodeEnv : Option JSString) (error : JSVal) (r : Response)
    (h : Server.chatCatch nodeEnv error = some r) : r.hasField "reply" = true := by
  unfold Server.chatCatch at h
  split at h
  · simp at h
  · simp at h; subst h; simp [Response.hasField, Response.field, json]
  · split at h
    · simp at h
    · simp at h; subst h; simp [Response.hasField, Response.field, json]
    · split at h
      · split at h
        · simp at h
        · simp at h; subst h; simp [Response.hasField, Response.field, json]
      · simp at h; subst h; simp [Response.hasField, Response.field, json]

theorem Server.accepted_hasReply (nodeEnv : Option JSString) (m : Store) (key : JSString)
    (gen : Generation) (r : Response) (h : Server.accepted nodeEnv m key gen = some r) :
    r.hasField "reply" = true := by
  unfold Server.accepted at h
  split at h
  · simp at h; subst h; simp [Response.hasField, Response.field, json]
  · split at h
    · simp at h; subst h; simp [Response.hasField, Response.field, json]
    · exact Server.chatCatch_hasReply _ _ r h

theorem EntryPoint.chat_hasReply (ep : EntryPoint) (m : Store) (body : Body)
    (nowCreate nowTouch : Int) (gen : Generation) (r : Response)
    (h : (ep.chat m body nowCreate nowTouch gen).response = some r) :
    r.hasField "reply" = true := by
  rw [EntryPoint.chat_eq_server] at h
  rcases Server.chat_rejected_or_valid m body nowCreate nowTouch gen with ⟨text, ht⟩ | hv
  · rw [ht] at h
    simp only [Option.some.injEq] at h
    subst h
    simp [Response.hasField, Response.field, json]
  · rw [Server.chat_response _ m body nowCreate nowTouch gen hv] at h
    exact Server.accepted_hasReply _ _ _ _ r h

/-- C9, as stated, fails: the 404 of the reset operation and the 404 of the
unmatched-route handlers of both entry points are error responses without a
`reply` field. -/
theorem not_found_responses_lack_reply :
    (∃ r, (Server.resetSession [] none).response = some r ∧ 400 ≤ r.status ∧
      r.hasField "reply" = false) ∧
    (400 ≤ (Server.notFound (lit "/nowhere")).status ∧
      (Server.notFound (lit "/nowhere")).hasField "reply" = false) ∧
    (∃ r, (Api.handler [] strayRequest (lit "2026-01-01T00:00:00.000Z") 0 0
        (.ok (lit "ok"))).response = some r ∧ 400 ≤ r.status ∧ r.hasField "reply" = false) := by
  refine ⟨⟨_, rfl, by decide, by decide⟩, ⟨by decide, by decide⟩, ⟨_, rfl, by decide, by decide⟩⟩

/-- C9, amended: every error response of the chat operation (both entry
points) and every response of the server's error handler is a JSON object with
a `reply` field; the 404 of the reset operation carries a `message` field and
no `reply`, and the 404 of the unmatched-route handlers carries `error` and
`path` and no `reply`; every error response of the serverless handler is of
the first or of the last kind. -/
theorem error_response_fields :
    (∀ (ep : EntryPoint) (m : Store) (body : Body) (nowCreate nowTouch : Int)
        (gen : Generation) (r : Response),
      (ep.chat m body nowCreate nowTouch gen).response = some r → 400 ≤ r.status →
      r.hasField "reply" = true) ∧
    (∀ (nodeEnv : Option JSString) (err : JSVal) (r : Response),
      Server.errorHandler nodeEnv err = some r → r.status = 500 ∧ r.hasField "reply" = true) ∧
    (∀ (m : Store) (sessionId : Option JSString) (r : Response),
      (Server.resetSession m sessionId).response = some r → 400 ≤ r.status →
      r.status = 404 ∧ r.hasField "message" = true ∧ r.hasField "reply" = false) ∧
    (∀ path : JSString,
      (Server.notFound path).status = 404 ∧ (Server.notFound path).hasField "error" = true ∧
      (Server.notFound path).hasField "path" = true ∧
      (Server.notFound path).hasField "reply" = false) ∧
    (∀ (m : Store) (req : Api.Request) (timestamp : JSString) (nowCreate nowTouch : Int)
        (gen : Generation) (r : Response),
      (Api.handler m req timestamp nowCreate nowTouch gen).response = some r → 400 ≤ r.status →
      r.hasField "reply" = true ∨
        (r.status = 404 ∧ r.hasField "error" = true ∧ r.hasField "path" = true ∧
          r.hasField "reply" = false)) := by
  refine ⟨?_, ?_, ?_, ?_, ?_⟩
  · intro ep m body nowCreate nowTouch gen r h _
    exact EntryPoint.chat_hasReply ep m body nowCreate nowTouch gen r h
  · intro nodeEnv err r h
    unfold Server.errorHandler at h
    split at h
    · split at h
      · simp at h
      · simp at h; subst h; simp [Response.hasField, Response.field, json]
    · simp at h; subst h; simp [Response.hasField, Response.field, json]
  · intro m sessionId r h hs
    unfold Server.resetSession at h
    simp only [] at h
    split at h
    · simp at h; subst h; simp at hs
    · simp at h; subst h; simp [Response.hasField, Response.field, json]
  · intro path
    simp [Server.notFound, Response.hasField, Response.field, json]
  · intro m req timestamp nowCreate nowTouch gen r h hs
    unfold Api.handler at h
    simp only [] at h
    split at h
    · simp at h; subst h; simp at hs
    · split at h
      · simp at h; subst h; simp at hs
      · split at h
        · exact Or.inl (EntryPoint.chat_hasReply .api m req.body nowCreate nowTouch gen r h)
        · simp at h; subst h
          right
          simp [Response.hasField, Response.field, json]

/-- C9, amended, on the sample request answered 429 at the ceiling: the error
response has a `reply` field. -/
theorem error_response_fields_witness :
    ∃ r, (EntryPoint.chat .api limitedStore sampleCall.body 5 6 (.ok (lit "ok"))).response
        = some r ∧ 400 ≤ r.status ∧ r.hasField "reply" = true :=
  ⟨{ status := 429, body := some (json [("reply", .str (lit
      "Terlalu banyak pesan. Silakan tunggu beberapa saat."))]) }, rfl, by decide,
    error_response_fields.1 .api limitedStore sampleCall.body 5 6 (.ok (lit "ok")) _ rfl
      (by decide)⟩

/-! ## The two entry points agree -/

/-- C10: on every store, body, clock readings and outcome of the generation
call, the chat operation of the standalone server (under any `NODE_ENV`) and
that of the serverless handler leave the same store and send responses with
the same status, the same `reply` and the same `sessionId` field (or both send
none). -/
theorem entry_points_agree (nodeEnv : Option JSString) (m : Store) (body : Body)
    (nowCreate nowTouch : Int) (gen : Generation) :
    (Server.chat nodeEnv m body nowCreate nowTouch gen).chatSessions =
      (Api.chat m body nowCreate nowTouch gen).chatSessions ∧
    (Server.chat nodeEnv m body nowCreate nowTouch gen).response.map Response.status =
      (Api.chat m body nowCreate nowTouch gen).response.map Response.status ∧
    (Server.chat nodeEnv m body nowCreate nowTouch gen).response.map
        (fun r => r.field "reply") =
      (Api.chat m body nowCreate nowTouch gen).response.map (fun r => r.field "reply") ∧
    (Server.chat nodeEnv m body nowCreate nowTouch gen).response.map
        (fun r => r.field "sessionId") =
      (Api.chat m body nowCreate nowTouch gen).response.map (fun r => r.field "sessionId") := by
  rw [Api.chat_eq]
  rcases Server.chat_rejected_or_valid m body nowCreate nowTouch gen with ⟨text, ht⟩ | hv
  · rw [ht nodeEnv, ht none]
    exact ⟨rfl, rfl, rfl, rfl⟩
  · rw [Server.chat_store nodeEnv m body nowCreate nowTouch gen hv,
      Server.chat_store none m body nowCreate nowTouch gen hv,
      Server.chat_response nodeEnv m body nowCreate nowTouch gen hv,
      Server.chat_response none m body nowCreate nowTouch gen hv]
    refine ⟨rfl, ?_⟩
    unfold Server.accepted
    split
    · exact ⟨rfl, rfl, rfl⟩
    · cases gen with
      | ok text => exact ⟨rfl, rfl, rfl⟩
      | error e => exact Server.chatCatch_agree nodeEnv e

end RaPal
